import Mathlib

/-!
# Verification of the AmpliGraph loss-function subsystem

Shallow embedding of `ampligraph/latent_features/loss_functions.py`:
the loss registry, the shared `Loss` contract (input checks, `apply`),
and the six concrete loss variants (pairwise, nll, absolute_margin,
self_adversarial, multiclass_nll, bce).  Score tensors are modelled as
`List ℝ`; the `eta × n` reshape of the negatives is modelled row-major
via indexed access; failures raised by the Python code (assertion
failures under `tf.control_dependencies`, configuration exceptions) are
modelled with `Except`.
-/

/- ------------------------------------------------------------------ -/
/- Module-level constants (loss_functions.py lines 18-37)             -/
/- ------------------------------------------------------------------ -/

/-- Default margin used by pairwise and absolute margin loss. -/
def DEFAULT_MARGIN : ℝ := 1

/-- Default sampling temperature used by adversarial loss. -/
noncomputable def DEFAULT_ALPHA_ADVERSARIAL : ℝ := 0.5

/-- Default margin used by margin based adversarial loss. -/
def DEFAULT_MARGIN_ADVERSARIAL : ℝ := 3

/-- Min score below which the values will be clipped before applying exponential. -/
def DEFAULT_CLIP_EXP_LOWER : ℝ := -75.0

/-- Max score above which the values will be clipped before applying exponential. -/
def DEFAULT_CLIP_EXP_UPPER : ℝ := 75.0

/-- Default label smoothing for ConvE (`None` in the source). -/
def DEFAULT_LABEL_SMOOTHING : Option ℝ := none

/-- Default label weighting for ConvE. -/
def DEFAULT_LABEL_WEIGHTING : Bool := false

/- ------------------------------------------------------------------ -/
/- Numeric stability helper (clip_before_exp, lines 65-70)            -/
/- ------------------------------------------------------------------ -/

/-- `clip_before_exp(value)`: `tf.clip_by_value(value, -75.0, 75.0)`,
i.e. `min(max(value, clip_value_min), clip_value_max)` elementwise. -/
noncomputable def clip_before_exp (x : ℝ) : ℝ :=
  min (max x DEFAULT_CLIP_EXP_LOWER) DEFAULT_CLIP_EXP_UPPER

/-- The spec's description of the stability helper: clamp every element
into the closed interval [-75.0, 75.0]. -/
noncomputable def clampSpec (x : ℝ) : ℝ :=
  if x < -75 then -75 else if 75 < x then 75 else x

/-- The source's `clip_before_exp` agrees with the spec's clamp. -/
theorem clip_eq_clampSpec (x : ℝ) : clip_before_exp x = clampSpec x := by
  unfold clip_before_exp clampSpec DEFAULT_CLIP_EXP_LOWER DEFAULT_CLIP_EXP_UPPER
  rcases lt_or_le x (-75) with h1 | h1
  · rw [max_eq_right (by linarith), if_pos (by norm_num [h1])]
    norm_num
  · rw [max_eq_left (by norm_num; linarith)]
    rcases lt_or_le 75 x with h2 | h2
    · rw [min_eq_right (by norm_num; linarith), if_neg (by norm_num; linarith),
        if_pos (by norm_num [h2])]
      norm_num
    · rw [min_eq_left (by norm_num; linarith), if_neg (by norm_num; linarith),
        if_neg (by norm_num; linarith)]

/- ------------------------------------------------------------------ -/
/- Sigmoid helpers (tf.sigmoid / tf.log_sigmoid)                       -/
/- ------------------------------------------------------------------ -/

/-- `tf.sigmoid(x) = 1 / (1 + exp(-x))`. -/
noncomputable def sigmoid (x : ℝ) : ℝ := 1 / (1 + Real.exp (-x))

/-- `tf.log_sigmoid(x) = log(sigmoid(x))`. -/
noncomputable def logSigmoid (x : ℝ) : ℝ := Real.log (sigmoid x)

/- ------------------------------------------------------------------ -/
/- Loss registry (register_loss, lines 40-62)                          -/
/- ------------------------------------------------------------------ -/

/-- A loss descriptor: what `register_loss` records in `LOSS_REGISTRY`
for one loss class (its registered name, its declared external
hyperparameters, and the `class_params` flag
`require_same_size_pos_neg`). -/
structure LossDescriptor where
  name : String
  external_params : List String
  require_same_size_pos_neg : Bool
  deriving DecidableEq, Repr

/-- `@register_loss("pairwise", ['margin'])` — class_params defaulted to
`{'require_same_size_pos_neg': True}`. -/
def pairwiseDescriptor : LossDescriptor :=
  { name := "pairwise", external_params := ["margin"],
    require_same_size_pos_neg := true }

/-- `@register_loss("nll")`. -/
def nllDescriptor : LossDescriptor :=
  { name := "nll", external_params := [],
    require_same_size_pos_neg := true }

/-- `@register_loss("absolute_margin", ['margin'])`. -/
def absoluteMarginDescriptor : LossDescriptor :=
  { name := "absolute_margin", external_params := ["margin"],
    require_same_size_pos_neg := true }

/-- `@register_loss("self_adversarial", ['margin', 'alpha'],
{'require_same_size_pos_neg': False})`. -/
def selfAdversarialDescriptor : LossDescriptor :=
  { name := "self_adversarial", external_params := ["margin", "alpha"],
    require_same_size_pos_neg := false }

/-- `@register_loss("multiclass_nll", [], {'require_same_size_pos_neg': False})`. -/
def multiclassNllDescriptor : LossDescriptor :=
  { name := "multiclass_nll", external_params := [],
    require_same_size_pos_neg := false }

/-- `@register_loss('bce', ['label_smoothing', 'label_weighting'],
{'require_same_size_pos_neg': False})`. -/
def bceDescriptor : LossDescriptor :=
  { name := "bce", external_params := ["label_smoothing", "label_weighting"],
    require_same_size_pos_neg := false }

/-- `LOSS_REGISTRY`: the process-wide name-to-descriptor mapping after
module initialization has registered all six variants. -/
def LOSS_REGISTRY (name : String) : Option LossDescriptor :=
  if name = "pairwise" then some pairwiseDescriptor
  else if name = "nll" then some nllDescriptor
  else if name = "absolute_margin" then some absoluteMarginDescriptor
  else if name = "self_adversarial" then some selfAdversarialDescriptor
  else if name = "multiclass_nll" then some multiclassNllDescriptor
  else if name = "bce" then some bceDescriptor
  else none

/- ------------------------------------------------------------------ -/
/- Errors raised by the subsystem                                      -/
/- ------------------------------------------------------------------ -/

/-- The failures the Python code can raise: the `tf.Assert` shape
dependency firing inside `apply`, the BCE label-smoothing configuration
exception, the registry `KeyError` path in `get_state`, and the
`KeyError` wrapper in `Loss.__init__` for missing hyperparameters. -/
inductive LossErr where
  | shapeMismatch : LossErr
  | missingNumEntities : LossErr
  | unknownKey : LossErr
  | missingHyperparameter : String → LossErr
  deriving DecidableEq, Repr

/- ------------------------------------------------------------------ -/
/- Loss contract: get_state, _inputs_check, apply (lines 109-197)      -/
/- ------------------------------------------------------------------ -/

/-- `class_params.get(param_name)` on a descriptor's class params dict
`{'require_same_size_pos_neg': flag}`: `dict.get` returns the value for
the single present key and `None` for every other key. -/
def classParamsGet (d : LossDescriptor) (param : String) : Option Bool :=
  if param = "require_same_size_pos_neg" then some d.require_same_size_pos_neg
  else none

/-- `Loss.get_state(param_name)` for an instance whose class is
registered under `name`: `LOSS_REGISTRY[self.name]` raises `KeyError`
(re-raised as an exception) only when the name is not registered;
otherwise it returns `class_params.get(param_name)`, which never
raises. -/
def Loss.get_state (name param : String) : Except LossErr (Option Bool) :=
  match LOSS_REGISTRY name with
  | some d => .ok (classParamsGet d param)
  | none => .error .unknownKey

/-- `Loss._inputs_check`: rebuilds `self._dependencies` from scratch on
the current inputs; appends the same-length assertion only when the
descriptor's `require_same_size_pos_neg` holds and `eta != 1`.  Each
dependency is the boolean the `tf.Assert` checks. -/
def Loss._inputs_check (d : LossDescriptor) (eta npos nneg : ℕ) : List Bool :=
  if d.require_same_size_pos_neg = true ∧ eta ≠ 1 then [decide (npos = nneg)]
  else []

/-- `Loss.apply`: runs `_inputs_check` on the current inputs, then
evaluates the variant reduction under `tf.control_dependencies` of the
rebuilt assertion list — the reduction's value is produced only if every
pending assertion holds, otherwise the step aborts with the assertion
failure. -/
noncomputable def Loss.apply (d : LossDescriptor) (eta : ℕ)
    (reduce : List ℝ → List ℝ → ℝ) (scores_pos scores_neg : List ℝ) :
    Except LossErr ℝ :=
  if (Loss._inputs_check d eta scores_pos.length scores_neg.length).all (fun b => b)
  then .ok (reduce scores_pos scores_neg)
  else .error .shapeMismatch

/- ------------------------------------------------------------------ -/
/- Grid helpers for the eta × n reshape of the negatives               -/
/- ------------------------------------------------------------------ -/

/-- `tf.reshape(scores_neg, [eta, n])` read at row `i`, column `j`:
row-major element `i * n + j` of the flat tensor. -/
def gridAt (n : ℕ) (xs : List ℝ) (i j : ℕ) : ℝ :=
  xs.getD (i * n + j) 0

/-- `tf.nn.softmax(f, axis=0)` of an `eta`-row grid, read at row `i`,
column `j`: the softmax is taken per column over the `eta` rows. -/
noncomputable def softmaxCol (eta : ℕ) (f : ℕ → ℕ → ℝ) (i j : ℕ) : ℝ :=
  Real.exp (f i j) / ∑ k ∈ Finset.range eta, Real.exp (f k j)

/- ------------------------------------------------------------------ -/
/- PairwiseLoss._apply (lines 246-264)                                 -/
/- ------------------------------------------------------------------ -/

/-- `PairwiseLoss._apply`:
`tf.reduce_sum(tf.maximum(margin - scores_pos + scores_neg, 0))`,
paired elementwise over equal-shape tensors. -/
noncomputable def PairwiseLoss._apply (margin : ℝ) (scores_pos scores_neg : List ℝ) : ℝ :=
  (List.zipWith (fun p n => max (margin - p + n) 0) scores_pos scores_neg).sum

/-- The spec's pairwise formula: `sum(max(0, margin − scores_pos + scores_neg))`. -/
noncomputable def pairwiseSpec (margin : ℝ) (scores_pos scores_neg : List ℝ) : ℝ :=
  (List.zipWith (fun p n => max 0 (margin - p + n)) scores_pos scores_neg).sum

/- ------------------------------------------------------------------ -/
/- NLLLoss._apply (lines 306-325)                                      -/
/- ------------------------------------------------------------------ -/

/-- `NLLLoss._apply`: clip both tensors with `clip_before_exp`, form
`scores = tf.concat([-scores_pos, scores_neg], 0)`, and return
`tf.reduce_sum(tf.log(1 + tf.exp(scores)))`. -/
noncomputable def NLLLoss._apply (scores_pos scores_neg : List ℝ) : ℝ :=
  let scores_neg' := scores_neg.map clip_before_exp
  let scores_pos' := scores_pos.map clip_before_exp
  let scores := (scores_pos'.map (fun x => -x)) ++ scores_neg'
  (scores.map (fun s => Real.log (1 + Real.exp s))).sum

/-- The spec's NLL formula: clamp each score into [-75, 75], then
`sum(log(1 + exp(concat(−scores_pos, scores_neg))))`. -/
noncomputable def nllSpec (scores_pos scores_neg : List ℝ) : ℝ :=
  (((scores_pos.map (fun x => -(clampSpec x))) ++ scores_neg.map clampSpec).map
    (fun s => Real.log (1 + Real.exp s))).sum

/- ------------------------------------------------------------------ -/
/- AbsoluteMarginLoss._apply (lines 377-395)                           -/
/- ------------------------------------------------------------------ -/

/-- `AbsoluteMarginLoss._apply`:
`tf.reduce_sum(tf.maximum(margin + scores_neg, 0) - scores_pos)`. -/
noncomputable def AbsoluteMarginLoss._apply (margin : ℝ) (scores_pos scores_neg : List ℝ) : ℝ :=
  (List.zipWith (fun p n => max (margin + n) 0 - p) scores_pos scores_neg).sum

/-- The spec's absolute-margin formula:
`sum(max(0, margin + scores_neg) − scores_pos)`. -/
noncomputable def absoluteMarginSpec (margin : ℝ) (scores_pos scores_neg : List ℝ) : ℝ :=
  (List.zipWith (fun p n => max 0 (margin + n) - p) scores_pos scores_neg).sum

/- ------------------------------------------------------------------ -/
/- SelfAdversarialLoss._apply (lines 460-487)                          -/
/- ------------------------------------------------------------------ -/

/-- `p_neg = tf.nn.softmax(alpha * scores_neg_reshaped, axis=0)` with
`scores_neg_reshaped = tf.reshape(scores_neg, [eta, n])`. -/
noncomputable def selfAdv_p_neg (eta : ℕ) (alpha : ℝ) (n : ℕ) (scores_neg : List ℝ)
    (i j : ℕ) : ℝ :=
  softmaxCol eta (fun i j => alpha * gridAt n scores_neg i j) i j

/-- `SelfAdversarialLoss._apply`: with `n = tf.shape(scores_pos)[0]`,
`loss = tf.reduce_sum(-tf.log_sigmoid(margin - tf.negative(scores_pos)))
 - tf.reduce_sum(tf.multiply(p_neg, tf.log_sigmoid(tf.negative(scores_neg_reshaped) - margin)))`. -/
noncomputable def SelfAdversarialLoss._apply (eta : ℕ) (margin alpha : ℝ)
    (scores_pos scores_neg : List ℝ) : ℝ :=
  let n := scores_pos.length
  (∑ j ∈ Finset.range n, -(logSigmoid (margin - (-(scores_pos.getD j 0)))))
    - ∑ i ∈ Finset.range eta, ∑ j ∈ Finset.range n,
        selfAdv_p_neg eta alpha n scores_neg i j
          * logSigmoid (-(gridAt n scores_neg i j) - margin)

/-- The spec's self-adversarial formula:
`−sum(log_sigmoid(margin + scores_pos))
 − sum(p_neg ⊙ log_sigmoid(−scores_neg_grid − margin))`, the second sum
over the full `eta × n` grid. -/
noncomputable def selfAdversarialSpec (eta : ℕ) (margin alpha : ℝ)
    (scores_pos scores_neg : List ℝ) : ℝ :=
  let n := scores_pos.length;
  -(∑ j ∈ Finset.range n, logSigmoid (margin + scores_pos.getD j 0))
    - ∑ i ∈ Finset.range eta, ∑ j ∈ Finset.range n,
        selfAdv_p_neg eta alpha n scores_neg i j
          * logSigmoid (-(gridAt n scores_neg i j) - margin)

/- ------------------------------------------------------------------ -/
/- NLLMulticlass._apply (lines 538-564)                                -/
/- ------------------------------------------------------------------ -/

/-- `NLLMulticlass._apply`: clip both tensors, reshape the clipped
negatives into `[eta, n]`, and return
`-tf.reduce_sum(tf.log(pos_exp / (tf.reduce_sum(neg_exp, axis=0) + pos_exp)))`
with `neg_exp = tf.exp(scores_neg_reshaped)`, `pos_exp = tf.exp(scores_pos)`. -/
noncomputable def NLLMulticlass._apply (eta : ℕ) (scores_pos scores_neg : List ℝ) : ℝ :=
  let n := scores_pos.length
  let scores_pos' := scores_pos.map clip_before_exp
  let scores_neg' := scores_neg.map clip_before_exp
  let softmax_score : ℕ → ℝ := fun j =>
    Real.exp (scores_pos'.getD j 0) /
      ((∑ i ∈ Finset.range eta, Real.exp (gridAt n scores_neg' i j))
        + Real.exp (scores_pos'.getD j 0));
  -(∑ j ∈ Finset.range n, Real.log (softmax_score j))

/-- The spec's multiclass-NLL formula: clamp both tensors into
[-75, 75], reshape negatives into `eta × n`, and return
`−sum(log(exp(scores_pos) / (sum(exp(scores_neg_grid), axis=0) + exp(scores_pos))))`. -/
noncomputable def multiclassNllSpec (eta : ℕ) (scores_pos scores_neg : List ℝ) : ℝ :=
  let n := scores_pos.length
  let scores_pos' := scores_pos.map clampSpec
  let scores_neg' := scores_neg.map clampSpec;
  -(∑ j ∈ Finset.range n, Real.log
      (Real.exp (scores_pos'.getD j 0) /
        ((∑ i ∈ Finset.range eta, Real.exp (gridAt n scores_neg' i j))
          + Real.exp (scores_pos'.getD j 0))))

/- ------------------------------------------------------------------ -/
/- BCELoss (lines 567-707)                                             -/
/- ------------------------------------------------------------------ -/

/-- The `_loss_parameters` dict of a constructed `BCELoss` instance:
`eta`, the two hyperparameters stored by `_init_hyperparams`, and the
optional `num_entities` entry added later by `_set_hyperparams`
(absent, i.e. `none`, until the setter is called). -/
structure BCEParams where
  eta : ℕ
  label_smoothing : Option ℝ
  label_weighting : Bool
  num_entities : Option ℝ

/-- `BCELoss._set_hyperparams('num_entities', value)`: stores (or
overrides, with only a log message) the `num_entities` entry of
`_loss_parameters`. -/
def BCELoss._set_hyperparams (p : BCEParams) (value : ℝ) : BCEParams :=
  { p with num_entities := some value }

/-- `tf.nn.sigmoid_cross_entropy_with_logits(labels=z, logits=x)`
elementwise: `−(z·log(sigmoid(x)) + (1−z)·log(1−sigmoid(x)))`. -/
noncomputable def sigmoidCrossEntropyWithLogits (z x : ℝ) : ℝ :=
  -(z * Real.log (sigmoid x) + (1 - z) * Real.log (1 - sigmoid x))

/-- `BCELoss._apply(y_true, y_pred)`: optionally smooth the labels
(`y_true := (1 − smoothing)·y_true + smoothing / num_entities`), then
either the label-weighted reduction (with `wt = tf.reduce_mean(y_true)`
and `eps = 1e-6`) or the plain summed sigmoid cross-entropy. -/
noncomputable def BCELoss._apply (p : BCEParams) (y_true y_pred : List ℝ) : ℝ :=
  let y_true' :=
    match p.label_smoothing with
    | some s => y_true.map (fun y => (1 - s) * y + s / (p.num_entities.getD 0))
    | none => y_true
  if p.label_weighting then
    let wt := y_true'.sum / (y_true'.length : ℝ);
    -((List.zipWith
        (fun y q => (1 - wt) * y * logSigmoid q
          + wt * (1 - y) * Real.log (1 - sigmoid q + 1e-6)) y_true' y_pred).sum)
  else
    (List.zipWith (fun y q => sigmoidCrossEntropyWithLogits y q) y_true' y_pred).sum

/-- `BCELoss.apply(y_true, y_pred)`: `BCELoss._inputs_check`
unconditionally appends a same-length `tf.Assert` over the two inputs,
and raises the label-smoothing configuration exception immediately when
`label_smoothing` is not `None` but no `num_entities` entry exists; the
reduction then runs under `tf.control_dependencies` of the pending
assertion.  The configuration exception is raised during
`_inputs_check` itself, before the shape assertion can fire. -/
noncomputable def BCELoss.apply (p : BCEParams) (y_true y_pred : List ℝ) :
    Except LossErr ℝ :=
  if p.label_smoothing.isSome ∧ p.num_entities.isNone then
    .error .missingNumEntities
  else if y_pred.length = y_true.length then
    .ok (BCELoss._apply p y_true y_pred)
  else
    .error .shapeMismatch

/- ------------------------------------------------------------------ -/
/- Hyperparameter dicts and variant constructors                       -/
/- ------------------------------------------------------------------ -/

/-- A `hyperparam_dict` as consumed by the `_init_hyperparams` hooks:
each field is `some v` when the key is present and `none` when absent
(`dict.get(key, default)` then yields the default).  For
`label_smoothing` the stored value is itself an `Option ℝ` because the
Python value `None` (smoothing disabled) is a legal present value. -/
structure HyperparamDict where
  margin : Option ℝ := none
  alpha : Option ℝ := none
  label_smoothing : Option (Option ℝ) := none
  label_weighting : Option Bool := none

/-- The empty hyperparameter mapping `{}`. -/
def emptyHyperparams : HyperparamDict := {}

/-- `_loss_parameters` of a pairwise / absolute-margin instance. -/
structure MarginParams where
  eta : ℕ
  margin : ℝ

/-- `_loss_parameters` of a self-adversarial instance. -/
structure SelfAdvParams where
  eta : ℕ
  margin : ℝ
  alpha : ℝ

/-- `Loss.__init__` for `PairwiseLoss`: stores `eta`, then
`_init_hyperparams` reads `hyperparam_dict.get('margin', DEFAULT_MARGIN)`;
a `KeyError` inside the hook would be wrapped into the
missing-hyperparameter exception, but `dict.get` with a default never
raises, so the error branch is unreachable. -/
def PairwiseLoss.construct (eta : ℕ) (d : HyperparamDict) :
    Except LossErr MarginParams :=
  .ok { eta := eta, margin := d.margin.getD DEFAULT_MARGIN }

/-- `Loss.__init__` for `NLLLoss`: `_init_hyperparams` reads nothing. -/
def NLLLoss.construct (eta : ℕ) (_d : HyperparamDict) : Except LossErr ℕ :=
  .ok eta

/-- `Loss.__init__` for `AbsoluteMarginLoss`: same hook as pairwise. -/
def AbsoluteMarginLoss.construct (eta : ℕ) (d : HyperparamDict) :
    Except LossErr MarginParams :=
  .ok { eta := eta, margin := d.margin.getD DEFAULT_MARGIN }

/-- `Loss.__init__` for `SelfAdversarialLoss`: `_init_hyperparams` reads
`margin` (default `DEFAULT_MARGIN_ADVERSARIAL`) and `alpha` (default
`DEFAULT_ALPHA_ADVERSARIAL`). -/
noncomputable def SelfAdversarialLoss.construct (eta : ℕ) (d : HyperparamDict) :
    Except LossErr SelfAdvParams :=
  .ok { eta := eta,
        margin := d.margin.getD DEFAULT_MARGIN_ADVERSARIAL,
        alpha := d.alpha.getD DEFAULT_ALPHA_ADVERSARIAL }

/-- `Loss.__init__` for `NLLMulticlass`: `_init_hyperparams` is `pass`. -/
def NLLMulticlass.construct (eta : ℕ) (_d : HyperparamDict) : Except LossErr ℕ :=
  .ok eta

/-- `Loss.__init__` for `BCELoss`: `_init_hyperparams` reads
`label_smoothing` (default `DEFAULT_LABEL_SMOOTHING = None`) and
`label_weighting` (default `DEFAULT_LABEL_WEIGHTING = False`); no
`num_entities` entry exists until `_set_hyperparams` is called. -/
def BCELoss.construct (eta : ℕ) (d : HyperparamDict) : Except LossErr BCEParams :=
  .ok { eta := eta,
        label_smoothing := d.label_smoothing.getD DEFAULT_LABEL_SMOOTHING,
        label_weighting := d.label_weighting.getD DEFAULT_LABEL_WEIGHTING,
        num_entities := none }

/- ------------------------------------------------------------------ -/
/- Variant-level apply entry points (base-class Loss.apply)            -/
/- ------------------------------------------------------------------ -/

/-- `apply` of a constructed pairwise loss. -/
noncomputable def PairwiseLoss.applyLoss (eta : ℕ) (margin : ℝ)
    (scores_pos scores_neg : List ℝ) : Except LossErr ℝ :=
  Loss.apply pairwiseDescriptor eta (PairwiseLoss._apply margin) scores_pos scores_neg

/-- `apply` of a constructed nll loss. -/
noncomputable def NLLLoss.applyLoss (eta : ℕ)
    (scores_pos scores_neg : List ℝ) : Except LossErr ℝ :=
  Loss.apply nllDescriptor eta NLLLoss._apply scores_pos scores_neg

/-- `apply` of a constructed absolute-margin loss. -/
noncomputable def AbsoluteMarginLoss.applyLoss (eta : ℕ) (margin : ℝ)
    (scores_pos scores_neg : List ℝ) : Except LossErr ℝ :=
  Loss.apply absoluteMarginDescriptor eta (AbsoluteMarginLoss._apply margin)
    scores_pos scores_neg

/-- `apply` of a constructed self-adversarial loss. -/
noncomputable def SelfAdversarialLoss.applyLoss (eta : ℕ) (margin alpha : ℝ)
    (scores_pos scores_neg : List ℝ) : Except LossErr ℝ :=
  Loss.apply selfAdversarialDescriptor eta
    (SelfAdversarialLoss._apply eta margin alpha) scores_pos scores_neg

/-- `apply` of a constructed multiclass-nll loss. -/
noncomputable def NLLMulticlass.applyLoss (eta : ℕ)
    (scores_pos scores_neg : List ℝ) : Except LossErr ℝ :=
  Loss.apply multiclassNllDescriptor eta (NLLMulticlass._apply eta)
    scores_pos scores_neg

/- ------------------------------------------------------------------ -/
/- Claim theorems                                                      -/
/- ------------------------------------------------------------------ -/

/-- C7: for the pairwise loss with hyperparameter `margin` (default 1),
for every equal-length `scores_pos` and `scores_neg` the reduction
returns `sum(max(0, margin − scores_pos + scores_neg))` elementwise; in
particular with `margin = 1`, `scores_pos = [1.0]`,
`scores_neg = [0.0]` the result is 0. -/
theorem pairwise_reduce_formula (margin : ℝ) (scores_pos scores_neg : List ℝ)
    (hlen : scores_pos.length = scores_neg.length) :
    PairwiseLoss._apply margin scores_pos scores_neg
      = pairwiseSpec margin scores_pos scores_neg ∧
    PairwiseLoss._apply 1 [1] [0] = 0 := by
  constructor
  · unfold PairwiseLoss._apply pairwiseSpec
    simp [max_comm]
  · unfold PairwiseLoss._apply
    norm_num

/-- Witness for C7 at `margin = 1`, `scores_pos = [1.0]`, `scores_neg = [0.0]`. -/
theorem pairwise_reduce_formula_witness :
    PairwiseLoss._apply 1 [1] [0] = pairwiseSpec 1 [1] [0] ∧
    PairwiseLoss._apply 1 [1] [0] = 0 :=
  pairwise_reduce_formula 1 [1] [0] rfl

/-- C8: for the absolute_margin loss with hyperparameter `margin`
(default 1), for every equal-length `scores_pos` and `scores_neg` the
reduction returns `sum(max(0, margin + scores_neg) − scores_pos)`
elementwise; in particular with `margin = 1`, `scores_pos = [0.5]`,
`scores_neg = [0.5]` the result is 1.0. -/
theorem absolute_margin_reduce_formula (margin : ℝ) (scores_pos scores_neg : List ℝ)
    (hlen : scores_pos.length = scores_neg.length) :
    AbsoluteMarginLoss._apply margin scores_pos scores_neg
      = absoluteMarginSpec margin scores_pos scores_neg ∧
    AbsoluteMarginLoss._apply 1 [0.5] [0.5] = 1.0 := by
  constructor
  · unfold AbsoluteMarginLoss._apply absoluteMarginSpec
    simp [max_comm]
  · unfold AbsoluteMarginLoss._apply
    norm_num

/-- Witness for C8 at `margin = 1`, `scores_pos = [0.5]`, `scores_neg = [0.5]`. -/
theorem absolute_margin_reduce_formula_witness :
    AbsoluteMarginLoss._apply 1 [0.5] [0.5] = absoluteMarginSpec 1 [0.5] [0.5] ∧
    AbsoluteMarginLoss._apply 1 [0.5] [0.5] = 1.0 :=
  absolute_margin_reduce_formula 1 [0.5] [0.5] rfl

/-- C2 counterexample: `get_state` on the registered "pairwise" loss
with the absent class-parameter name "eta" returns `None` (`dict.get`
of an absent key) instead of failing with an unknown-parameter error. -/
theorem get_state_absent_returns_none_cex :
    Loss.get_state "pairwise" "eta" = Except.ok none := rfl

/-- C2 (amended): for every registered loss, `get_state(param_name)`
never fails: it returns the stored class-parameter value (`some flag`)
for the present name `"require_same_size_pos_neg"`, and returns `None`
(not an `UnknownParameterError`) for every absent name. -/
theorem get_state_class_params (name param : String) (d : LossDescriptor)
    (h : LOSS_REGISTRY name = some d) :
    Loss.get_state name param = .ok (classParamsGet d param) ∧
    (param ≠ "require_same_size_pos_neg" → Loss.get_state name param = .ok none) ∧
    Loss.get_state name "require_same_size_pos_neg"
      = .ok (some d.require_same_size_pos_neg) := by
  unfold Loss.get_state
  rw [h]
  refine ⟨rfl, fun hp => ?_, ?_⟩
  · simp [classParamsGet, hp]
  · simp [classParamsGet]

/-- Witness for C2's amended claim on the "pairwise" descriptor with
the absent name "margin". -/
theorem get_state_class_params_witness :
    Loss.get_state "pairwise" "margin" = .ok none :=
  (get_state_class_params "pairwise" "margin" pairwiseDescriptor rfl).2.1 (by decide)

/-- C10: for every one of the six registered loss variants and every
positive `eta`, construction with the empty hyperparameter mapping
succeeds (the missing-hyperparameter error path is unreachable) and
resolves each external hyperparameter to its default: margin 1 for
pairwise and absolute_margin; margin 3 and alpha 0.5 for
self_adversarial; label smoothing disabled and label weighting false
for bce; none for nll and multiclass_nll. -/
theorem construct_empty_hyperparams_defaults (eta : ℕ) (h : 0 < eta) :
    PairwiseLoss.construct eta emptyHyperparams = .ok ⟨eta, 1⟩ ∧
    NLLLoss.construct eta emptyHyperparams = .ok eta ∧
    AbsoluteMarginLoss.construct eta emptyHyperparams = .ok ⟨eta, 1⟩ ∧
    SelfAdversarialLoss.construct eta emptyHyperparams = .ok ⟨eta, 3, 0.5⟩ ∧
    NLLMulticlass.construct eta emptyHyperparams = .ok eta ∧
    BCELoss.construct eta emptyHyperparams = .ok ⟨eta, none, false, none⟩ := by
  refine ⟨rfl, rfl, rfl, ?_, rfl, rfl⟩
  unfold SelfAdversarialLoss.construct emptyHyperparams
  norm_num [DEFAULT_MARGIN_ADVERSARIAL, DEFAULT_ALPHA_ADVERSARIAL]

/-- Witness for C10 at `eta = 1`. -/
theorem construct_empty_hyperparams_defaults_witness :
    PairwiseLoss.construct 1 emptyHyperparams = .ok ⟨1, 1⟩ :=
  (construct_empty_hyperparams_defaults 1 (by decide)).1

/-- C3: for the pairwise, nll and absolute_margin losses (descriptor
flag `require_same_size_pos_neg = true`), `apply` fails with the shape
mismatch error whenever `eta ≠ 1` and the input lengths differ, and
when `eta = 1` no length check is made (mismatched lengths raise no
error, the reduction value is returned).  The check is recomputed on
every call: `apply` re-runs `_inputs_check` on the current inputs'
lengths each time. -/
theorem require_same_size_enforced (eta : ℕ) (margin : ℝ)
    (scores_pos scores_neg : List ℝ) :
    (eta ≠ 1 → scores_pos.length ≠ scores_neg.length →
      PairwiseLoss.applyLoss eta margin scores_pos scores_neg
        = .error .shapeMismatch ∧
      NLLLoss.applyLoss eta scores_pos scores_neg = .error .shapeMismatch ∧
      AbsoluteMarginLoss.applyLoss eta margin scores_pos scores_neg
        = .error .shapeMismatch) ∧
    (eta = 1 →
      PairwiseLoss.applyLoss eta margin scores_pos scores_neg
        = .ok (PairwiseLoss._apply margin scores_pos scores_neg) ∧
      NLLLoss.applyLoss eta scores_pos scores_neg
        = .ok (NLLLoss._apply scores_pos scores_neg) ∧
      AbsoluteMarginLoss.applyLoss eta margin scores_pos scores_neg
        = .ok (AbsoluteMarginLoss._apply margin scores_pos scores_neg)) := by
  constructor
  · intro he hl
    unfold PairwiseLoss.applyLoss NLLLoss.applyLoss AbsoluteMarginLoss.applyLoss
      Loss.apply Loss._inputs_check
    simp [pairwiseDescriptor, nllDescriptor, absoluteMarginDescriptor, he, hl]
  · intro he
    subst he
    unfold PairwiseLoss.applyLoss NLLLoss.applyLoss AbsoluteMarginLoss.applyLoss
      Loss.apply Loss._inputs_check
    simp

/-- Witness for C3 at `eta = 2` with lengths 1 and 2. -/
theorem require_same_size_enforced_witness :
    PairwiseLoss.applyLoss 2 1 [1] [1, 2] = .error .shapeMismatch ∧
    NLLLoss.applyLoss 2 [1] [1, 2] = .error .shapeMismatch ∧
    AbsoluteMarginLoss.applyLoss 2 1 [1] [1, 2] = .error .shapeMismatch :=
  (require_same_size_enforced 2 1 [1] [1, 2]).1 (by decide) (by decide)

/-- C1 counterexample: for the bce loss (default hyperparameters, no
label smoothing), `apply` on inputs of mismatched lengths does fail:
`BCELoss._inputs_check` unconditionally appends a same-length assertion
over `y_true` and `y_pred`, which fires under
`tf.control_dependencies`. -/
theorem bce_enforces_same_length_cex :
    BCELoss.apply ⟨1, none, false, none⟩ [0] [0, 0] = .error .shapeMismatch := by
  simp [BCELoss.apply]

/-- C1 (amended): for the self_adversarial and multiclass_nll losses,
for every pair of input tensors and every `eta`, `apply` adds no
equal-length assertion and never fails: the descriptor flag
`require_same_size_pos_neg` is false, so `_inputs_check` leaves the
dependency list empty.  The bce loss, by contrast, overrides
`_inputs_check` to unconditionally assert equal lengths of `y_true`
and `y_pred`, so its `apply` fails on every mismatched pair. -/
theorem no_same_size_check_selfadv_multiclass (eta : ℕ) (margin alpha : ℝ)
    (scores_pos scores_neg y_true y_pred : List ℝ) (p : BCEParams) :
    SelfAdversarialLoss.applyLoss eta margin alpha scores_pos scores_neg
      = .ok (SelfAdversarialLoss._apply eta margin alpha scores_pos scores_neg) ∧
    NLLMulticlass.applyLoss eta scores_pos scores_neg
      = .ok (NLLMulticlass._apply eta scores_pos scores_neg) ∧
    (p.label_smoothing = none → y_true.length ≠ y_pred.length →
      BCELoss.apply p y_true y_pred = .error .shapeMismatch) := by
  refine ⟨?_, ?_, fun hs hl => ?_⟩
  · unfold SelfAdversarialLoss.applyLoss Loss.apply Loss._inputs_check
    simp [selfAdversarialDescriptor]
  · unfold NLLMulticlass.applyLoss Loss.apply Loss._inputs_check
    simp [multiclassNllDescriptor]
  · simp [BCELoss.apply, hs, Ne.symm hl]

/-- Witness for C1's amended claim: mismatched lengths accepted by
self_adversarial and multiclass_nll, rejected by bce. -/
theorem no_same_size_check_witness :
    BCELoss.apply ⟨1, none, false, none⟩ [0] [0, 1] = .error .shapeMismatch :=
  (no_same_size_check_selfadv_multiclass 2 3 0.5 [0] [0, 1] [0] [0, 1]
    ⟨1, none, false, none⟩).2.2 rfl (by decide)

/-- C4: for the self_adversarial loss with hyperparameters `margin` and
`alpha`, for every `scores_pos` of length `n` and `scores_neg` of
length `eta * n`, the reduction equals
`−sum(log_sigmoid(margin + scores_pos))
 − sum(p_neg ⊙ log_sigmoid(−scores_neg_grid − margin))` over the
`eta × n` grid, where `p_neg = softmax(alpha · scores_neg_grid)` per
column over the `eta` negatives, and each column of `p_neg` sums
to 1. -/
theorem selfadv_reduce_formula (eta : ℕ) (margin alpha : ℝ)
    (scores_pos scores_neg : List ℝ) (heta : 0 < eta)
    (hlen : scores_neg.length = eta * scores_pos.length) :
    SelfAdversarialLoss._apply eta margin alpha scores_pos scores_neg
      = selfAdversarialSpec eta margin alpha scores_pos scores_neg ∧
    ∀ j, ∑ i ∈ Finset.range eta,
        selfAdv_p_neg eta alpha scores_pos.length scores_neg i j = 1 := by
  constructor
  · unfold SelfAdversarialLoss._apply selfAdversarialSpec
    dsimp only
    congr 1
    rw [← Finset.sum_neg_distrib]
    exact Finset.sum_congr rfl fun j _ => by rw [sub_neg_eq_add]
  · intro j
    unfold selfAdv_p_neg softmaxCol
    rw [← Finset.sum_div, div_self]
    exact ne_of_gt (Finset.sum_pos (fun k _ => Real.exp_pos _)
      ⟨0, Finset.mem_range.mpr heta⟩)

/-- Witness for C4 at `eta = 1`, `scores_pos = [0]`, `scores_neg = [0]`. -/
theorem selfadv_reduce_formula_witness :
    SelfAdversarialLoss._apply 1 3 0.5 [0] [0]
      = selfAdversarialSpec 1 3 0.5 [0] [0] :=
  (selfadv_reduce_formula 1 3 0.5 [0] [0] (by decide) (by decide)).1

/-- C5: for the multiclass_nll loss, for every `scores_pos` of length
`n` and `scores_neg` of length `eta * n`, the reduction first clamps
both tensors elementwise into [-75, 75], reshapes the clamped
negatives into an `eta × n` grid, computes
`softmax_score = exp(scores_pos) / (sum(exp(scores_neg_grid), axis=0) + exp(scores_pos))`
and returns `−sum(log(softmax_score))`. -/
theorem multiclass_reduce_formula (eta : ℕ) (scores_pos scores_neg : List ℝ)
    (hlen : scores_neg.length = eta * scores_pos.length) :
    NLLMulticlass._apply eta scores_pos scores_neg
      = multiclassNllSpec eta scores_pos scores_neg := by
  have hfun : clip_before_exp = clampSpec := funext clip_eq_clampSpec
  unfold NLLMulticlass._apply multiclassNllSpec
  rw [hfun]

/-- Witness for C5 at `eta = 1`, `scores_pos = [0]`, `scores_neg = [0]`. -/
theorem multiclass_reduce_formula_witness :
    NLLMulticlass._apply 1 [0] [0] = multiclassNllSpec 1 [0] [0] :=
  multiclass_reduce_formula 1 [0] [0] (by decide)

/-- C6: for the nll loss, the reduction returns
`sum(log(1 + exp(x)))` where `x` ranges over the concatenation of the
elementwise-negated clamped positives and the clamped negatives, each
score first clamped into [-75, 75] by the stability helper; and the
helper really clamps: its output always lies in [-75, 75] and it fixes
every input already in that interval. -/
theorem nll_reduce_formula (scores_pos scores_neg : List ℝ) :
    NLLLoss._apply scores_pos scores_neg = nllSpec scores_pos scores_neg ∧
    (∀ x : ℝ, -75 ≤ clip_before_exp x ∧ clip_before_exp x ≤ 75 ∧
      (-75 ≤ x → x ≤ 75 → clip_before_exp x = x)) := by
  constructor
  · have hfun : clip_before_exp = clampSpec := funext clip_eq_clampSpec
    unfold NLLLoss._apply nllSpec
    rw [hfun]
    dsimp only
    rw [List.map_map]
    rfl
  · intro x
    unfold clip_before_exp DEFAULT_CLIP_EXP_LOWER DEFAULT_CLIP_EXP_UPPER
    refine ⟨?_, ?_, ?_⟩
    · exact le_min (le_max_iff.mpr (Or.inr (by norm_num))) (by norm_num)
    · exact le_of_le_of_eq (min_le_right _ _) (by norm_num)
    · intro h1 h2
      rw [max_eq_left (by norm_num; linarith), min_eq_left (by norm_num; linarith)]

/-- Witness for C6: the formula at `scores_pos = [1]`,
`scores_neg = [2]`, and the clamp fixing the in-range score 3. -/
theorem nll_reduce_formula_witness :
    NLLLoss._apply [1] [2] = nllSpec [1] [2] ∧ clip_before_exp 3 = 3 :=
  ⟨(nll_reduce_formula [1] [2]).1,
   ((nll_reduce_formula [1] [2]).2 3).2.2 (by norm_num) (by norm_num)⟩

/-- C9: for the bce loss with label smoothing enabled and no
`num_entities` entry, every `apply` call fails with the configuration
error before any loss value is computed; after
`_set_hyperparams('num_entities', v)` the same call succeeds, and the
smoothing transform `y_true := (1 − s)·y_true + s / num_entities` is
applied: the result is the plain (smoothing-disabled) reduction of the
transformed labels. -/
theorem bce_label_smoothing_gate (p : BCEParams) (s v : ℝ)
    (y_true y_pred : List ℝ) (hs : p.label_smoothing = some s)
    (hn : p.num_entities = none) (hlen : y_pred.length = y_true.length) :
    BCELoss.apply p y_true y_pred = .error .missingNumEntities ∧
    BCELoss.apply (BCELoss._set_hyperparams p v) y_true y_pred
      = .ok (BCELoss._apply { p with label_smoothing := none, num_entities := some v }
              (y_true.map (fun y => (1 - s) * y + s / v)) y_pred) := by
  constructor
  · simp [BCELoss.apply, hs, hn]
  · simp [BCELoss.apply, BCELoss._set_hyperparams, hs, hlen, BCELoss._apply]

/-- Witness for C9 with `label_smoothing = 0.1`, `num_entities`
initially unset and then set to 10. -/
theorem bce_label_smoothing_gate_witness :
    BCELoss.apply ⟨1, some 0.1, false, none⟩ [1] [0]
      = .error .missingNumEntities :=
  (bce_label_smoothing_gate ⟨1, some 0.1, false, none⟩ 0.1 10 [1] [0]
    rfl rfl rfl).1
